import Mathlib

/-!
Verification of the Restaurant_App analytics core.

Numeric code is embedded over `ℚ` (exact rational semantics for the
JavaScript number arithmetic); days are modelled as integers; SQL/ORM
row sets are modelled as lists of records.  Each definition mirrors one
function of the source; display-only string fields (rationale texts,
recommendation sentences) are elided, the numeric and state-carrying
fields are kept.
-/

namespace RestaurantApp

/-! `Math.abs`, `Math.max`, `Math.min` as executable rational functions
    (definitionally transparent to the kernel, unlike the lattice
    operations, and bridged to them by the lemmas below). -/

def jsAbs (a : ℚ) : ℚ := if a < 0 then -a else a

def jsMax (a b : ℚ) : ℚ := if a ≤ b then b else a

def jsMin (a b : ℚ) : ℚ := if a ≤ b then a else b

theorem jsAbs_eq_abs (a : ℚ) : jsAbs a = |a| := by
  unfold jsAbs
  split
  · exact (abs_of_neg (by assumption)).symm
  · exact (abs_of_nonneg (not_lt.mp (by assumption))).symm

theorem jsMax_eq_max (a b : ℚ) : jsMax a b = max a b := (max_def a b).symm

theorem jsMin_eq_min (a b : ℚ) : jsMin a b = min a b := (min_def a b).symm

/-! ## Revenue decomposition, SQL implementation
    (`src/server/src/engines/insightEngine.ts`, `InsightEngine.analyzeRevenueChange`).

    The per-item rows delivered by the grouped SQL query (`item_id`,
    `SUM(quantity)`, `AVG(price)`, `SUM(quantity*price)`) are the input;
    the query itself belongs to the external Transaction Store. -/

structure AggRow where
  itemId : ℤ
  qty : ℚ
  avgPrice : ℚ
  revenue : ℚ
deriving DecidableEq

/-- `currentMap.get(itemId)` / `comparisonMap.get(itemId)` lookup. -/
def findRow (rows : List AggRow) (i : ℤ) : Option AggRow :=
  rows.find? (fun r => r.itemId == i)

/-- `data.reduce((sum, item) => sum + item.revenue, 0)`. -/
def totalRevenue (rows : List AggRow) : ℚ :=
  rows.foldl (fun s r => s + r.revenue) 0

/-- Volume-effect loop: for each comparison row,
    `((current?.qty || 0) - comp.qty) * comp.avg_price`. -/
def volumeEffectSql (cur comp : List AggRow) : ℚ :=
  comp.foldl
    (fun s c => s + ((((findRow cur c.itemId).map (fun r => r.qty)).getD 0) - c.qty) * c.avgPrice)
    0

/-- Price-effect loop: for each current row with a comparison match,
    `(current.avg_price - comp.avg_price) * current.qty`. -/
def priceEffectSql (cur comp : List AggRow) : ℚ :=
  cur.foldl
    (fun s c =>
      match findRow comp c.itemId with
      | some k => s + (c.avgPrice - k.avgPrice) * c.qty
      | none => s)
    0

structure RevenueDecomposition where
  revenueChange : ℚ
  revenueChangePct : ℚ
  volumeEffect : ℚ
  volumeEffectPct : ℚ
  priceEffect : ℚ
  priceEffectPct : ℚ
  mixEffect : ℚ
  mixEffectPct : ℚ
deriving DecidableEq

/-- `InsightEngine.analyzeRevenueChange`, decomposition part.  The function
    unconditionally produces a decomposition record; every division is
    guarded exactly as in the source. -/
def analyzeRevenueChangeSql (cur comp : List AggRow) : RevenueDecomposition :=
  let totalCurrentRev := totalRevenue cur
  let totalComparisonRev := totalRevenue comp
  let revenueChange := totalCurrentRev - totalComparisonRev
  let volumeEffect := volumeEffectSql cur comp
  let priceEffect := priceEffectSql cur comp
  let mixEffect := revenueChange - volumeEffect - priceEffect
  { revenueChange := revenueChange
    revenueChangePct :=
      if 0 < totalComparisonRev then revenueChange / totalComparisonRev * 100 else 0
    volumeEffect := volumeEffect
    volumeEffectPct :=
      if revenueChange ≠ 0 then volumeEffect / jsAbs revenueChange * 100 else 0
    priceEffect := priceEffect
    priceEffectPct :=
      if revenueChange ≠ 0 then priceEffect / jsAbs revenueChange * 100 else 0
    mixEffect := mixEffect
    mixEffectPct :=
      if revenueChange ≠ 0 then mixEffect / jsAbs revenueChange * 100 else 0 }

/-! ## Revenue decomposition, ORM implementation
    (`src/unnamed/part_005`, `ExplainableInsightEngine`). -/

structure OrderItem where
  menuItemId : ℤ
  quantity : ℚ
  priceAtTime : ℚ
deriving DecidableEq

structure Order where
  totalAmount : ℚ
  orderItems : List OrderItem
deriving DecidableEq

/-- All order items of a list of orders, in order. -/
def allOrderItems (orders : List Order) : List OrderItem :=
  orders.foldr (fun o acc => o.orderItems ++ acc) []

/-- The distinct menu-item ids occurring in a list of orders
    (the key set of the map built by `aggregateItemData`). -/
def itemIds (orders : List Order) : List ℤ :=
  ((allOrderItems orders).map (fun i => i.menuItemId)).dedup

/-- Accumulated quantity for one key of the `aggregateItemData` map. -/
def itemQty (orders : List Order) (i : ℤ) : ℚ :=
  ((allOrderItems orders).filter (fun it => it.menuItemId == i)).foldl
    (fun s it => s + it.quantity) 0

/-- Accumulated revenue (`quantity * priceAtTime`) for one key. -/
def itemRev (orders : List Order) (i : ℤ) : ℚ :=
  ((allOrderItems orders).filter (fun it => it.menuItemId == i)).foldl
    (fun s it => s + it.quantity * it.priceAtTime) 0

/-- `data.avgPrice = data.qty > 0 ? data.revenue / data.qty : 0`. -/
def itemAvgPrice (orders : List Order) (i : ℤ) : ℚ :=
  if 0 < itemQty orders i then itemRev orders i / itemQty orders i else 0

/-- Membership in the `aggregateItemData` map of a period. -/
def hasItem (orders : List Order) (i : ℤ) : Bool :=
  (allOrderItems orders).any (fun it => it.menuItemId == i)

/-- `allItemIds = new Set([...currentItems.keys(), ...comparisonItems.keys()])`. -/
def allItemIdsOf (cur comp : List Order) : List ℤ :=
  (itemIds cur ++ itemIds comp).dedup

structure DecompositionFactors where
  volumeEffect : ℚ
  priceEffect : ℚ
  mixEffect : ℚ
  volumePct : ℚ
  pricePct : ℚ
  mixPct : ℚ
deriving DecidableEq

/-- `ExplainableInsightEngine.decomposeRevenueChange` (numeric part; the
    rendered formula string and assumption strings are elided). -/
def decomposeRevenueChange (cur comp : List Order) (totalRevenueChange : ℚ) :
    DecompositionFactors :=
  let volumeEffect :=
    (allItemIdsOf cur comp).foldl
      (fun s i =>
        if hasItem comp i then
          s + ((if hasItem cur i then itemQty cur i else 0) - itemQty comp i) * itemAvgPrice comp i
        else s)
      0
  let priceEffect :=
    (allItemIdsOf cur comp).foldl
      (fun s i =>
        if hasItem cur i ∧ hasItem comp i then
          s + itemQty cur i * (itemAvgPrice cur i - itemAvgPrice comp i)
        else s)
      0
  let mixEffect := totalRevenueChange - volumeEffect - priceEffect
  let absTotal := jsAbs totalRevenueChange
  { volumeEffect := volumeEffect
    priceEffect := priceEffect
    mixEffect := mixEffect
    volumePct := if 0 < absTotal then volumeEffect / absTotal * 100 else 0
    pricePct := if 0 < absTotal then priceEffect / absTotal * 100 else 0
    mixPct := if 0 < absTotal then mixEffect / absTotal * 100 else 0 }

/-- `ExplainableInsightEngine.calculateConfidenceScore`. -/
def calculateConfidenceScore (totalSamples currentSamples comparisonSamples : ℕ) : ℚ :=
  let sampleConfidence := jsMin 1 ((totalSamples : ℚ) / 200)
  let balance :=
    jsMin (currentSamples : ℚ) (comparisonSamples : ℚ) /
      jsMax (currentSamples : ℚ) (comparisonSamples : ℚ)
  let balancePenalty : ℚ := if balance < 1/2 then 8/10 else 1
  jsMin (85/100) (sampleConfidence * balancePenalty)

structure DecomposedInsight where
  currentRevenue : ℚ
  previousRevenue : ℚ
  absoluteChange : ℚ
  percentChange : ℚ
  factors : DecompositionFactors
  sampleSize : ℕ
  confidenceScore : ℚ
deriving DecidableEq

/-- `ExplainableInsightEngine.analyzeRevenueChange` (numeric skeleton):
    `null` when either period holds zero orders, otherwise the stored
    insight's numeric payload. -/
def explainableAnalyzeRevenueChange (currentOrders comparisonOrders : List Order) :
    Option DecomposedInsight :=
  if currentOrders.length = 0 ∨ comparisonOrders.length = 0 then
    none
  else
    let currentRevenue : ℚ := currentOrders.foldl (fun s o => s + o.totalAmount) 0
    let comparisonRevenue : ℚ := comparisonOrders.foldl (fun s o => s + o.totalAmount) 0
    let revenueChange : ℚ := currentRevenue - comparisonRevenue
    let revenueChangePct : ℚ :=
      if comparisonRevenue ≠ 0 then revenueChange / comparisonRevenue * 100 else 0
    some
      { currentRevenue := currentRevenue
        previousRevenue := comparisonRevenue
        absoluteChange := revenueChange
        percentChange := revenueChangePct
        factors := decomposeRevenueChange currentOrders comparisonOrders revenueChange
        sampleSize := currentOrders.length + comparisonOrders.length
        confidenceScore :=
          calculateConfidenceScore (currentOrders.length + comparisonOrders.length)
            currentOrders.length comparisonOrders.length }

/-- C1: every decomposition's volume, price and mix effects sum exactly to
    the total revenue change, because the mix effect is the residual.
    Stated for both implementations of the decomposition. -/
theorem additivity_of_revenue_decomposition :
    ∀ (cur comp : List AggRow) (curO compO : List Order) (t : ℚ),
      ((analyzeRevenueChangeSql cur comp).volumeEffect +
        (analyzeRevenueChangeSql cur comp).priceEffect +
        (analyzeRevenueChangeSql cur comp).mixEffect =
        (analyzeRevenueChangeSql cur comp).revenueChange) ∧
      ((decomposeRevenueChange curO compO t).volumeEffect +
        (decomposeRevenueChange curO compO t).priceEffect +
        (decomposeRevenueChange curO compO t).mixEffect = t) := by
  intro cur comp curO compO t
  constructor
  · simp only [analyzeRevenueChangeSql]
    ring
  · simp only [decomposeRevenueChange]
    ring

/-! ## Decision tracker (`src/server/src/engines/decisionTracker.ts`).

    The `decisions` table is a list of rows; `status` is the source's
    literal union `pending | accepted | rejected | implemented`.  Time is
    in whole days (`new Date()` at the update becomes the `now` argument). -/

inductive DStatus where
  | pending
  | accepted
  | rejected
  | implemented
deriving DecidableEq

structure Decision where
  id : ℕ
  entityId : ℤ
  entityType : String
  status : DStatus
  implementedAt : Option ℤ
  predictedImpact : Option ℚ
deriving DecidableEq

/-- `SELECT * FROM decisions WHERE id = ?` (ids are unique, first match). -/
def findDecision : List Decision → ℕ → Option Decision
  | [], _ => none
  | d :: rest, i => if d.id = i then some d else findDecision rest i

/-- `DecisionTracker.updateDecisionStatus`: an unconditional SQL `UPDATE`
    of the matching row's status, additionally stamping `implemented_at`
    when the new status is `implemented`.  The source performs no
    transition validation. -/
def updateDecisionStatus (now : ℤ) (store : List Decision) (i : ℕ) (s : DStatus) :
    List Decision :=
  store.map (fun d =>
    if d.id = i then
      if s = DStatus.implemented then
        { d with status := s, implementedAt := some now }
      else
        { d with status := s }
    else d)

/-! ## Outcome evaluator (`src/server/src/engines/outcomeEvaluator.ts`). -/

/-- One row of the `transactions` table (the columns the evaluator reads). -/
structure Txn where
  itemId : ℤ
  restaurantId : ℤ
  day : ℤ
  quantity : ℚ
  price : ℚ
  totalAmount : ℚ
deriving DecidableEq

structure MeasuredImpact where
  revenue_change_pct : ℚ
  before_revenue : ℚ
  after_revenue : ℚ
deriving DecidableEq

/-- `SELECT SUM(quantity * price) ... WHERE item_id = ? AND DATE(timestamp) BETWEEN ? AND ?`. -/
def itemWindowRevenue (txns : List Txn) (itemId lo hi : ℤ) : ℚ :=
  (txns.filter (fun t => t.itemId == itemId && decide (lo ≤ t.day) && decide (t.day ≤ hi))).foldl
    (fun s t => s + t.quantity * t.price) 0

/-- `SELECT SUM(total_amount) ... WHERE restaurant_id = ? AND DATE(timestamp) BETWEEN ? AND ?`. -/
def restaurantWindowRevenue (txns : List Txn) (rid lo hi : ℤ) : ℚ :=
  (txns.filter (fun t => t.restaurantId == rid && decide (lo ≤ t.day) && decide (t.day ≤ hi))).foldl
    (fun s t => s + t.totalAmount) 0

/-- `OutcomeEvaluator.measureItemImpact`: 14 days before implementation
    versus implementation through `now + 7` (`subDays(new Date(), -7)`). -/
def measureItemImpact (txns : List Txn) (itemId implDay now : ℤ) : MeasuredImpact :=
  let beforeRev := itemWindowRevenue txns itemId (implDay - 14) implDay
  let afterRev := itemWindowRevenue txns itemId implDay (now + 7)
  { revenue_change_pct :=
      if 0 < beforeRev then (afterRev - beforeRev) / beforeRev * 100 else 0
    before_revenue := beforeRev
    after_revenue := afterRev }

/-- `OutcomeEvaluator.measureRestaurantImpact`. -/
def measureRestaurantImpact (txns : List Txn) (rid implDay now : ℤ) : MeasuredImpact :=
  let beforeRev := restaurantWindowRevenue txns rid (implDay - 14) implDay
  let afterRev := restaurantWindowRevenue txns rid implDay (now + 7)
  { revenue_change_pct :=
      if 0 < beforeRev then (afterRev - beforeRev) / beforeRev * 100 else 0
    before_revenue := beforeRev
    after_revenue := afterRev }

/-- `OutcomeEvaluator.calculateAccuracy`.  The duck-typed impact maps are
    probed for `revenue_change_pct`; a missing key on either side is the
    fall-through returning `0.5`. -/
def calculateAccuracy (predicted actual : Option ℚ) : ℚ :=
  match predicted, actual with
  | some predVal, some actualVal =>
      if predVal = 0 ∧ actualVal = 0 then 1
      else
        jsMax 0 (1 - jsAbs (predVal - actualVal) / jsMax (jsAbs predVal) (jsAbs actualVal))
  | _, _ => 1/2

inductive EvalTier where
  | highly
  | moderately
  | off
deriving DecidableEq

/-- Tier selection of `OutcomeEvaluator.generateEvaluationText`
    (`accuracy > 0.8` / `accuracy > 0.5`, strict comparisons). -/
def evaluationTier (accuracy : ℚ) : EvalTier :=
  if 8/10 < accuracy then EvalTier.highly
  else if 1/2 < accuracy then EvalTier.moderately
  else EvalTier.off

structure DecisionOutcome where
  decisionId : ℕ
  actualRcp : ℚ
  evaluationDate : ℤ
  accuracyScore : ℚ
deriving DecidableEq

structure EvalResult where
  predicted : Option ℚ
  actualRcp : ℚ
  accuracy : ℚ
  tier : EvalTier
deriving DecidableEq

/-- The evaluator's preconditions as the source checks them:
    status is `implemented`, `implemented_at` is set, and
    `differenceInDays(now, implementedAt)` is at least 7. -/
def evaluablePreconditions (now : ℤ) (d : Decision) : Bool :=
  d.status == DStatus.implemented &&
    (match d.implementedAt with
     | some t => decide (7 ≤ now - t)
     | none => false)

/-- `OutcomeEvaluator.evaluateDecision`: returns the evaluation result (or
    `null`) together with the `decision_outcomes` table after the call. -/
def evaluateDecision (now : ℤ) (decisions : List Decision)
    (outcomes : List DecisionOutcome) (txns : List Txn) (i : ℕ) :
    Option EvalResult × List DecisionOutcome :=
  match findDecision decisions i with
  | none => (none, outcomes)
  | some d =>
    if d.status = DStatus.implemented then
      match d.implementedAt with
      | none => (none, outcomes)
      | some impl =>
        if now - impl < 7 then (none, outcomes)
        else
          let actual? : Option MeasuredImpact :=
            if d.entityType = "item" then
              some (measureItemImpact txns d.entityId impl now)
            else if d.entityType = "restaurant" then
              some (measureRestaurantImpact txns d.entityId impl now)
            else none
          match actual? with
          | none => (none, outcomes)
          | some actual =>
            let accuracy := calculateAccuracy d.predictedImpact (some actual.revenue_change_pct)
            (some
              { predicted := d.predictedImpact
                actualRcp := actual.revenue_change_pct
                accuracy := accuracy
                tier := evaluationTier accuracy },
             outcomes ++ [{ decisionId := i
                            actualRcp := actual.revenue_change_pct
                            evaluationDate := now
                            accuracyScore := accuracy }])
    else (none, outcomes)

/-- C2, counterexample: the transition `rejected → accepted` is outside the
    claim's legal set, yet `updateDecisionStatus` succeeds and changes the
    stored status (the source performs no validation at all). -/
theorem updateDecisionStatus_counterexample :
    (findDecision
        (updateDecisionStatus 0 [⟨1, 1, "item", DStatus.rejected, none, none⟩] 1
          DStatus.accepted) 1).map Decision.status = some DStatus.accepted ∧
    (findDecision [⟨1, 1, "item", DStatus.rejected, none, none⟩] 1).map Decision.status =
      some DStatus.rejected ∧
    DStatus.accepted ≠ DStatus.rejected := by
  decide

/-- C2, amended: `updateDecisionStatus` never fails and never leaves the
    status unchanged on a mismatch — for every store, decision id and
    requested status, the stored status after the call is exactly the
    requested status whenever the decision exists (and the call is a no-op
    on a missing id). -/
theorem updateDecisionStatus_overwrites_unconditionally :
    ∀ (now : ℤ) (store : List Decision) (i : ℕ) (s : DStatus),
      (findDecision (updateDecisionStatus now store i s) i).map Decision.status =
        (findDecision store i).map (fun _ => s) := by
  intro now store i s
  induction store with
  | nil => rfl
  | cons d rest ih =>
    by_cases h : d.id = i
    · by_cases hs : s = DStatus.implemented
      · simp [updateDecisionStatus, findDecision, h, hs]
      · simp [updateDecisionStatus, findDecision, h, hs]
    · simpa [updateDecisionStatus, findDecision, h] using ih

/-- C3: when the found decision fails the evaluator's preconditions
    (status `implemented` with an implementation date at least 7 days old),
    `evaluateDecision` returns `null` and leaves the outcome table
    untouched; conversely an outcome row is appended only when the
    preconditions hold. -/
theorem evaluateDecision_outcome_gating :
    ∀ (now : ℤ) (ds : List Decision) (outs : List DecisionOutcome)
      (txns : List Txn) (i : ℕ),
      ((∀ d, findDecision ds i = some d → evaluablePreconditions now d = false) →
        evaluateDecision now ds outs txns i = (none, outs)) ∧
      ((evaluateDecision now ds outs txns i).2 ≠ outs →
        ∃ d, findDecision ds i = some d ∧ evaluablePreconditions now d = true) := by
  intro now ds outs txns i
  cases hfd : findDecision ds i with
  | none =>
    refine ⟨fun _ => by simp [evaluateDecision, hfd], fun hne => ?_⟩
    exact absurd (by simp [evaluateDecision, hfd]) hne
  | some d =>
    by_cases hstat : d.status = DStatus.implemented
    · cases hia : d.implementedAt with
      | none =>
        refine ⟨fun _ => by simp [evaluateDecision, hfd, hstat, hia], fun hne => ?_⟩
        exact absurd (by simp [evaluateDecision, hfd, hstat, hia]) hne
      | some impl =>
        by_cases hdays : now - impl < 7
        · refine ⟨fun _ => by simp [evaluateDecision, hfd, hstat, hia, hdays], fun hne => ?_⟩
          exact absurd (by simp [evaluateDecision, hfd, hstat, hia, hdays]) hne
        · have hpre : evaluablePreconditions now d = true := by
            simp [evaluablePreconditions, hstat, hia, not_lt.mp hdays]
          refine ⟨fun h => absurd (h d rfl) (by simp [hpre]), fun _ => ⟨d, rfl, hpre⟩⟩
    · refine ⟨fun _ => by simp [evaluateDecision, hfd, hstat], fun hne => ?_⟩
      exact absurd (by simp [evaluateDecision, hfd, hstat]) hne

/-- C3, witness: a pending decision is not evaluated and writes nothing. -/
theorem evaluateDecision_outcome_gating_witness :
    evaluateDecision 10 [⟨1, 1, "item", DStatus.pending, none, none⟩] [] [] 1 = (none, []) :=
  (evaluateDecision_outcome_gating 10 [⟨1, 1, "item", DStatus.pending, none, none⟩] [] [] 1).1
    (fun d h => by
      have h' : some (⟨1, 1, "item", DStatus.pending, none, none⟩ : Decision) = some d := h
      cases h'
      decide)

/-- C10: a decision whose entity type is neither `item` nor `restaurant`
    is never measured: `evaluateDecision` returns `null` and appends no
    outcome, even for an implemented, fully matured decision. -/
theorem evaluateDecision_skips_unknown_entity :
    ∀ (now : ℤ) (ds : List Decision) (outs : List DecisionOutcome)
      (txns : List Txn) (i : ℕ) (d : Decision),
      findDecision ds i = some d →
      d.entityType ≠ "item" →
      d.entityType ≠ "restaurant" →
      evaluateDecision now ds outs txns i = (none, outs) := by
  intro now ds outs txns i d hfd hit hrest
  by_cases hstat : d.status = DStatus.implemented
  · cases hia : d.implementedAt with
    | none => simp [evaluateDecision, hfd, hstat, hia]
    | some impl =>
      by_cases hdays : now - impl < 7
      · simp [evaluateDecision, hfd, hstat, hia, hdays]
      · simp [evaluateDecision, hfd, hstat, hia, hdays, hit, hrest]
  · simp [evaluateDecision, hfd, hstat]

/-- C10, witness: an implemented, matured channel decision is skipped. -/
theorem evaluateDecision_skips_unknown_entity_witness :
    evaluateDecision 100 [⟨1, 1, "channel", DStatus.implemented, some 0, some 10⟩] [] [] 1 =
      (none, []) :=
  evaluateDecision_skips_unknown_entity 100
    [⟨1, 1, "channel", DStatus.implemented, some 0, some 10⟩] [] [] 1
    ⟨1, 1, "channel", DStatus.implemented, some 0, some 10⟩
    rfl (by decide) (by decide)

/-- C4, counterexample: predicted 10 and actual 8 give accuracy exactly
    `0.8`, but the evaluation text tier at `0.8` is NOT the
    "highly accurate" tier — `generateEvaluationText` requires strictly
    more than `0.8`. -/
theorem accuracy_tier_counterexample :
    calculateAccuracy (some 10) (some 8) = 4/5 ∧
    evaluationTier (calculateAccuracy (some 10) (some 8)) ≠ EvalTier.highly := by
  have h1 : calculateAccuracy (some 10) (some 8) = 4/5 := by
    norm_num [calculateAccuracy, jsAbs, jsMax]
  refine ⟨h1, ?_⟩
  rw [h1]
  norm_num [evaluationTier]
  decide

/-- C4, amended: the accuracy score is `1` when both percent changes are
    zero and otherwise `max(0, 1 − |p − a| / max(|p|, |a|))`, always in
    `[0, 1]`; predicted 10 versus actual 8 scores exactly `0.8`, which is
    rendered as "moderately accurate" because the "highly accurate" tier
    requires accuracy strictly greater than `0.8`. -/
theorem calculateAccuracy_spec :
    ∀ p a : ℚ,
      (calculateAccuracy (some p) (some a) =
        if p = 0 ∧ a = 0 then 1 else max 0 (1 - |p - a| / max |p| |a|)) ∧
      0 ≤ calculateAccuracy (some p) (some a) ∧
      calculateAccuracy (some p) (some a) ≤ 1 ∧
      calculateAccuracy (some 10) (some 8) = 4/5 ∧
      evaluationTier (calculateAccuracy (some 10) (some 8)) = EvalTier.moderately := by
  intro p a
  have hEq : calculateAccuracy (some p) (some a) =
      if p = 0 ∧ a = 0 then 1 else max 0 (1 - |p - a| / max |p| |a|) := by
    show (if p = 0 ∧ a = 0 then (1 : ℚ)
        else jsMax 0 (1 - jsAbs (p - a) / jsMax (jsAbs p) (jsAbs a))) = _
    simp only [jsMax_eq_max, jsAbs_eq_abs]
  have h1 : calculateAccuracy (some 10) (some 8) = 4/5 := by
    norm_num [calculateAccuracy, jsAbs, jsMax]
  refine ⟨hEq, ?_, ?_, h1, by rw [h1]; norm_num [evaluationTier]⟩
  · rw [hEq]
    by_cases h : p = 0 ∧ a = 0
    · simp [h]
    · simp only [h, if_false]
      exact le_max_left 0 _
  · rw [hEq]
    by_cases h : p = 0 ∧ a = 0
    · simp [h]
    · simp only [h, if_false]
      have hnonneg : 0 ≤ |p - a| / max |p| |a| :=
        div_nonneg (abs_nonneg _) (le_trans (abs_nonneg p) (le_max_left _ _))
      apply max_le (by norm_num)
      linarith

/-- C9: when either duck-typed impact map lacks the `revenue_change_pct`
    key, `calculateAccuracy` falls through to the fixed default `0.5`. -/
theorem calculateAccuracy_default_on_missing_key :
    ∀ x : Option ℚ, calculateAccuracy none x = 1/2 ∧ calculateAccuracy x none = 1/2 := by
  intro x
  cases x with
  | none => exact ⟨rfl, rfl⟩
  | some p => exact ⟨rfl, rfl⟩

/-! ## Menu-engineering quadrant classification
    (`src/unnamed/part_007`, menu-engineering route). -/

inductive EngCategory where
  | stars
  | plowhorses
  | puzzles
  | dogs
deriving DecidableEq

/-- The source's if/else chain on `popularity >= 50 && margin >= 680` etc.
    (50 popularity threshold, ₹680 margin threshold). -/
def engineeringCategory (popularity margin : ℚ) : EngCategory :=
  if 50 ≤ popularity ∧ 680 ≤ margin then EngCategory.stars
  else if 50 ≤ popularity ∧ margin < 680 then EngCategory.plowhorses
  else if popularity < 50 ∧ 680 ≤ margin then EngCategory.puzzles
  else EngCategory.dogs

/-- C6: over popularity in `[0, 100]` and any margin the four quadrants are
    total and mutually exclusive, with the boundary values (popularity
    exactly 50, margin exactly 680) going to the high bucket via `≥`. -/
theorem engineeringCategory_quadrants :
    ∀ popularity margin : ℚ, 0 ≤ popularity → popularity ≤ 100 →
      (engineeringCategory popularity margin = EngCategory.stars ↔
        50 ≤ popularity ∧ 680 ≤ margin) ∧
      (engineeringCategory popularity margin = EngCategory.plowhorses ↔
        50 ≤ popularity ∧ margin < 680) ∧
      (engineeringCategory popularity margin = EngCategory.puzzles ↔
        popularity < 50 ∧ 680 ≤ margin) ∧
      (engineeringCategory popularity margin = EngCategory.dogs ↔
        popularity < 50 ∧ margin < 680) := by
  intro popularity margin _ _
  unfold engineeringCategory
  by_cases hp : 50 ≤ popularity
  · by_cases hm : 680 ≤ margin
    · simp [hp, hm, not_lt.mpr hm, not_lt.mpr hp]
    · simp [hp, hm, not_le.mp hm, not_lt.mpr hp]
  · by_cases hm : 680 ≤ margin
    · simp [hp, hm, not_le.mp hp, not_lt.mpr hm]
    · simp [hp, hm, not_le.mp hp, not_le.mp hm]

/-- C6, witness: the double boundary (popularity 50, margin 680) is Stars. -/
theorem engineeringCategory_quadrants_witness :
    engineeringCategory 50 680 = EngCategory.stars :=
  ((engineeringCategory_quadrants 50 680 (by norm_num) (by norm_num)).1).mpr
    ⟨le_refl 50, le_refl 680⟩

/-! ## Baseline versioning
    (`src/server/src/engines/computationEngine.ts`,
    `ComputationEngine.computeItemBaseline`).

    One row of the `itemBaseline` table; `Math.sqrt` (used for the two
    standard deviations) is passed in as an abstract square-root oracle so
    the statistics stay executable over `ℚ`. -/

structure BaselineRow where
  menuItemId : ℕ
  periodStart : ℤ
  periodEnd : ℤ
  avgDailyQuantity : ℚ
  stdDevQuantity : ℚ
  avgDailyRevenue : ℚ
  stdDevRevenue : ℚ
  priceElasticity : Option ℚ
  seasonalityIndex : ℚ
  sampleSize : ℕ
  confidenceScore : ℚ
  version : ℕ
deriving DecidableEq

/-- One row of the grouped daily sales query feeding the baseline. -/
structure DailyPoint where
  qty : ℚ
  rev : ℚ
  price : ℚ
deriving DecidableEq

/-- `mean`: `arr.length ? arr.reduce((a, b) => a + b, 0) / arr.length : 0`. -/
def meanQ (xs : List ℚ) : ℚ :=
  if xs.length = 0 then 0 else xs.foldl (fun a b => a + b) 0 / xs.length

/-- `stdDev` up to the final `Math.sqrt`: population variance,
    `0` for fewer than 2 points. -/
def stdDevQ (sqrtQ : ℚ → ℚ) (xs : List ℚ) : ℚ :=
  if xs.length < 2 then 0
  else
    sqrtQ ((xs.foldl (fun s v => s + (v - meanQ xs) * (v - meanQ xs)) 0) / xs.length)

/-- Consecutive-day elasticity samples of `estimatePriceElasticity`:
    pairs with nonzero previous price and quantity, price change above 2%,
    elasticity kept when strictly inside `(-10, 10)`. -/
def elasticitySamples (data : List DailyPoint)  : List ℚ :=
  (data.zip data.tail).foldr
    (fun pc acc =>
      let prev := pc.1
      let curr := pc.2
      if prev.price = 0 ∨ prev.qty = 0 then acc
      else
        let pctChangePrice := (curr.price - prev.price) / prev.price
        let pctChangeQty := (curr.qty - prev.qty) / prev.qty
        if 2/100 < jsAbs pctChangePrice then
          let e := pctChangeQty / pctChangePrice
          if -10 < e ∧ e < 10 then e :: acc else acc
        else acc)
    []

/-- `estimatePriceElasticity`: mean of the surviving samples, `null` when
    none qualify. -/
def estimatePriceElasticity (data : List DailyPoint) : Option ℚ :=
  let samples := elasticitySamples data
  if samples.length = 0 then none
  else some (samples.foldl (fun a b => a + b) 0 / samples.length)

/-- `findFirst({where: {menuItemId, periodEnd}, orderBy: {version: desc}})
    ?.version || 0`: the greatest version stored for this item and period
    end, `0` when none exists. -/
def latestVersion : List BaselineRow → ℕ → ℤ → ℕ
  | [], _, _ => 0
  | r :: rest, itemId, periodEnd =>
    if r.menuItemId = itemId ∧ r.periodEnd = periodEnd then
      Nat.max r.version (latestVersion rest itemId periodEnd)
    else latestVersion rest itemId periodEnd

/-- `ComputationEngine.computeItemBaseline`: below 5 daily points nothing
    is written; otherwise a fresh row is `create`d (appended) with
    `version = (existing?.version || 0) + 1`, keyed by the item AND the
    exact period end of this call. -/
def computeItemBaseline (store : List BaselineRow) (menuItemId : ℕ)
    (endDate lookbackDays : ℤ) (dailyData : List DailyPoint) (sqrtQ : ℚ → ℚ) :
    List BaselineRow :=
  if dailyData.length < 5 then store
  else
    let quantities := dailyData.map (fun d => d.qty)
    let revenues := dailyData.map (fun d => d.rev)
    let avgQty := meanQ quantities
    let stdQty := stdDevQ sqrtQ quantities
    let avgRev := meanQ revenues
    let stdRev := stdDevQ sqrtQ revenues
    let cv := if 0 < avgQty then stdQty / avgQty else 1
    let confidence := jsMax 0 ((1 - cv) * jsMin 1 ((dailyData.length : ℚ) / 30))
    let version := latestVersion store menuItemId endDate + 1
    store ++
      [{ menuItemId := menuItemId
         periodStart := endDate - lookbackDays
         periodEnd := endDate
         avgDailyQuantity := avgQty
         stdDevQuantity := stdQty
         avgDailyRevenue := avgRev
         stdDevRevenue := stdRev
         priceElasticity := estimatePriceElasticity dailyData
         seasonalityIndex := 1
         sampleSize := dailyData.length
         confidenceScore := confidence
         version := version }]

/-- Five qualifying days of identical sales, enough for a baseline. -/
def ex7data : List DailyPoint :=
  [⟨1, 1, 1⟩, ⟨1, 1, 1⟩, ⟨1, 1, 1⟩, ⟨1, 1, 1⟩, ⟨1, 1, 1⟩]

/-- Every stored row matching the item and period end is bounded by
    `latestVersion`. -/
theorem version_le_latestVersion (store : List BaselineRow) (i : ℕ) (e : ℤ) :
    ∀ r ∈ store, r.menuItemId = i → r.periodEnd = e →
      r.version ≤ latestVersion store i e := by
  induction store with
  | nil => intro r hr; cases hr
  | cons hd tl ih =>
    intro r hr h1 h2
    rw [latestVersion]
    cases hr with
    | head =>
      rw [if_pos ⟨h1, h2⟩]
      exact Nat.le_max_left _ _
    | tail _ hmem =>
      by_cases hc : hd.menuItemId = i ∧ hd.periodEnd = e
      · rw [if_pos hc]
        exact le_trans (ih r hmem h1 h2) (Nat.le_max_right _ _)
      · rw [if_neg hc]
        exact ih r hmem h1 h2

/-- C7, counterexample: two `computeItemBaseline` calls for the same item
    on different days (period ends 100 and 101) both store version 1 — the
    version lookup is keyed by item AND period end, so the same item ends
    up with two rows of equal version, and the second row's version is not
    the previous version plus one. -/
theorem computeItemBaseline_counterexample :
    ((computeItemBaseline (computeItemBaseline [] 1 100 30 ex7data (fun _ => 0)) 1 101 30
        ex7data (fun _ => 0)).map (fun r => (r.menuItemId, r.periodEnd, r.version))) =
      [(1, 100, 1), (1, 101, 1)] := by
  rfl

/-- C7, amended: `computeItemBaseline` with at least 5 daily points is
    append-only and strictly version-increasing per item AND period end:
    the store is extended by exactly one new row whose version is one more
    than the greatest version previously stored for that item and period
    end, hence strictly above every matching prior row; rows with a
    different period end are not covered by the increment (as the
    counterexample shows, equal versions recur across period ends). -/
theorem computeItemBaseline_versioning (store : List BaselineRow) (menuItemId : ℕ)
    (endDate lookbackDays : ℤ) (dailyData : List DailyPoint) (sqrtQ : ℚ → ℚ)
    (h : 5 ≤ dailyData.length) :
    ∃ r, computeItemBaseline store menuItemId endDate lookbackDays dailyData sqrtQ =
        store ++ [r] ∧
      r.menuItemId = menuItemId ∧ r.periodEnd = endDate ∧
      r.version = latestVersion store menuItemId endDate + 1 ∧
      ∀ r' ∈ store, r'.menuItemId = menuItemId → r'.periodEnd = endDate →
        r'.version < r.version := by
  unfold computeItemBaseline
  rw [if_neg (Nat.not_lt.mpr h)]
  exact ⟨_, rfl, rfl, rfl, rfl, fun r' hr' h1 h2 =>
    Nat.lt_succ_of_le (version_le_latestVersion store menuItemId endDate r' hr' h1 h2)⟩

/-- C7, witness: the first baseline for an item is appended with version 1. -/
theorem computeItemBaseline_versioning_witness :
    ∃ r, computeItemBaseline [] 1 100 30 ex7data (fun _ => 0) = [] ++ [r] ∧
      r.menuItemId = 1 ∧ r.periodEnd = 100 ∧ r.version = latestVersion [] 1 100 + 1 ∧
      ∀ r' ∈ ([] : List BaselineRow), r'.menuItemId = 1 → r'.periodEnd = 100 →
        r'.version < r.version :=
  computeItemBaseline_versioning [] 1 100 30 ex7data (fun _ => 0) (by decide)

/-! ## Decision generation (`src/unnamed/part_009`, decisions route).

    `Math.round(x)` is `⌊x + 1/2⌋` (round half toward positive infinity);
    channel names are classified with the source's `String.includes` test;
    display-only fields (rationale, risks, recommendation texts) are
    elided, the quantitative payload is kept. -/

def jsRound (x : ℚ) : ℤ := ⌊x + 1/2⌋

structure ImpactRange where
  min : ℤ
  max : ℤ
  confidence : ℕ
deriving DecidableEq

structure GenDecision where
  action : String
  category : String
  priority : String
  impact : ImpactRange
deriving DecidableEq

/-- One element of the `getMenuEngineering` output consumed by the
    decision loop. -/
structure MenuRow where
  popularity : ℚ
  margin : ℚ
  revenue : ℚ
  orders : ℚ
  price : ℚ
  cost : ℚ
  prepTime : ℚ
deriving DecidableEq

/-- Puzzle branch: low popularity, high margin, promote at a projected 45%
    volume increase; range `[0.7×, 1.2×]`, confidence 75. -/
def promoteDecision (item : MenuRow) : List GenDecision :=
  if item.popularity < 50 ∧ 680 ≤ item.margin then
    let projectedIncrease := item.orders * (45/100)
    let impact := projectedIncrease * item.margin
    [{ action := "Promote", category := "Menu"
       priority := if 1000 < item.margin then "high" else "medium"
       impact :=
        { min := jsRound (impact * (7/10)), max := jsRound (impact * (12/10)), confidence := 75 } }]
  else []

/-- Plowhorse branch: high popularity, positive low margin, 15% price
    increase with an assumed 25% volume loss; range `[0.8×, 1.1×]`. -/
def repriceDecision (item : MenuRow) : List GenDecision :=
  if 50 ≤ item.popularity ∧ item.margin < 680 ∧ 0 < item.margin then
    let priceIncrease : ℤ := jsRound (item.price * (15/100))
    let newOrders := item.orders * (1 - 25/100)
    let newMargin := item.price + priceIncrease - item.cost
    let impact := newOrders * newMargin - item.orders * item.margin
    [{ action := "Reprice", category := "Menu"
       priority := if 200 < item.orders then "high" else "medium"
       impact :=
        { min := jsRound (impact * (8/10)), max := jsRound (impact * (11/10)), confidence := 70 } }]
  else []

/-- Dog branch: slow high-prep item, removed when the opportunity cost
    (2.3 dishes blocked) exceeds the margin contribution; `[0.6×, 1.4×]`. -/
def removeDecision (item : MenuRow) : List GenDecision :=
  if item.popularity < 50 ∧ item.margin < 680 ∧ 15 < item.prepTime then
    let opportunityCost := item.prepTime * item.orders * (23/10)
    let impact := opportunityCost - item.orders * item.margin
    if 0 < impact then
      [{ action := "Remove", category := "Menu", priority := "medium"
         impact :=
          { min := jsRound (impact * (6/10)), max := jsRound (impact * (14/10)), confidence := 65 } }]
    else []
  else []

/-- The three menu branches of the decision loop, in source order. -/
def menuDecisionsFor (item : MenuRow) : List GenDecision :=
  promoteDecision item ++ repriceDecision item ++ removeDecision item

structure ChannelMetric where
  channel : String
  totalOrders : ℕ
  totalRevenue : ℚ
  netMargin : ℚ
  netMarginPercent : ℚ
deriving DecidableEq

def directChannelKey : String := "delivery-direct"

def zomatoKey : String := "zomato"

def swiggyKey : String := "swiggy"

/-- `s.includes(pat)` via `splitOn`: a pattern occurs iff splitting on it
    yields more than one part. -/
def strIncludes (s pat : String) : Bool := decide (1 < (s.splitOn pat).length)

def isAggregator (c : ChannelMetric) : Bool :=
  strIncludes c.channel zomatoKey || strIncludes c.channel swiggyKey

/-- Channel-optimization decision: shift toward a 70/30 direct split when
    direct net margin beats the aggregator average; `[0.7×, 1.3×]`. -/
def channelDecisions (channelData : List ChannelMetric) : List GenDecision :=
  match channelData.find? (fun c => c.channel == directChannelKey) with
  | none => []
  | some directChannel =>
    let aggregatorChannels := channelData.filter isAggregator
    if 0 < aggregatorChannels.length then
      let aggregatorTotal := aggregatorChannels.foldl (fun s c => s + c.totalRevenue) 0
      let aggregatorMargin := aggregatorChannels.foldl (fun s c => s + c.netMargin) 0
      if aggregatorMargin / (aggregatorChannels.length : ℚ) < directChannel.netMargin then
        let currentSplit := aggregatorTotal / (aggregatorTotal + directChannel.totalRevenue)
        let impact := (currentSplit - 3/10) * aggregatorTotal * (5/10)
        [{ action := "Optimize", category := "Channel", priority := "high"
           impact :=
            { min := jsRound (impact * (7/10)), max := jsRound (impact * (13/10)),
              confidence := 75 } }]
      else []
    else []

structure HourMetric where
  hour : ℤ
  orders : ℕ
  revenue : ℚ
deriving DecidableEq

/-- Capacity decision: peak (18–21h) RevPASH more than twice off-peak
    (14–17h) triggers an 11% improvement estimate over 3 hours at 104
    seat-hours; `[0.8×, 1.2×]`. -/
def capacityDecisions (capacityData : List HourMetric) : List GenDecision :=
  let peakHours := capacityData.filter (fun c => decide (18 ≤ c.hour) && decide (c.hour ≤ 21))
  let offPeakHours := capacityData.filter (fun c => decide (14 ≤ c.hour) && decide (c.hour < 18))
  if 0 < peakHours.length ∧ 0 < offPeakHours.length then
    let peakRevPASH :=
      peakHours.foldl (fun s h => s + h.revenue) 0 / ((peakHours.length : ℚ) * 104)
    let offPeakRevPASH :=
      offPeakHours.foldl (fun s h => s + h.revenue) 0 / ((offPeakHours.length : ℚ) * 104)
    if offPeakRevPASH * 2 < peakRevPASH then
      let improvement := (peakRevPASH - offPeakRevPASH) * (11/100) * 104 * 3
      [{ action := "Optimize", category := "Operations", priority := "medium"
         impact :=
          { min := jsRound (improvement * (8/10)), max := jsRound (improvement * (12/10)),
            confidence := 65 } }]
    else []
  else []

/-- One menu item with its completed-order line items
    (input of `getMenuEngineering`). -/
structure RawOrderItem where
  quantity : ℚ
  price : ℚ
deriving DecidableEq

structure RawMenuItem where
  sellingPrice : ℚ
  costPrice : ℚ
  prepTime : Option ℚ
  orderItems : List RawOrderItem
deriving DecidableEq

/-- `getMenuEngineering`: aggregates per-item orders, popularity scaled so
    the per-item average lands at 50 and capped at 100
    (`Math.min(100, orders / avgOrdersPerItem * 50)`); `item.prepTime || 10`
    maps both a missing and a zero prep time to 10. -/
def getMenuEngineering (menuItems : List RawMenuItem) : List MenuRow :=
  let totalOrders : ℚ :=
    menuItems.foldl (fun s it => s + it.orderItems.foldl (fun s2 oi => s2 + oi.quantity) 0) 0
  let avgOrdersPerItem :=
    totalOrders / (if menuItems.length = 0 then 1 else (menuItems.length : ℚ))
  menuItems.map (fun it =>
    let orders := it.orderItems.foldl (fun s oi => s + oi.quantity) 0
    { popularity :=
        if 0 < avgOrdersPerItem then jsMin 100 (orders / avgOrdersPerItem * 50) else 0
      margin := it.sellingPrice - it.costPrice
      revenue := it.orderItems.foldl (fun s oi => s + oi.quantity * oi.price) 0
      orders := orders
      price := it.sellingPrice
      cost := it.costPrice
      prepTime :=
        match it.prepTime with
        | some p => if p = 0 then 10 else p
        | none => 10 })

/-- The `GET` handler of the decisions route: empty when the store holds
    no orders at all, else the menu, channel and capacity decisions. -/
def generateDecisions (orderCount : ℕ) (menuData : List MenuRow)
    (channelData : List ChannelMetric) (capacityData : List HourMetric) :
    List GenDecision :=
  if orderCount = 0 then []
  else menuData.flatMap menuDecisionsFor ++ channelDecisions channelData ++
    capacityDecisions capacityData

/-- Rounded scaled copies of one impact estimate are ordered whenever the
    larger-coefficient copy rounds to a nonnegative number. -/
theorem jsRound_coeff_mono (i lo hi : ℚ) (hlo : 0 < lo) (hlohi : lo ≤ hi)
    (h : 0 ≤ jsRound (i * hi)) : jsRound (i * lo) ≤ jsRound (i * hi) := by
  rcases le_or_lt 0 i with hi0 | hi0
  · exact Int.floor_mono (by nlinarith)
  · have h1 : i * lo + 1/2 < 1 := by nlinarith
    have h2 : jsRound (i * lo) < 1 := by
      rw [jsRound]
      exact Int.floor_lt.mpr (by exact_mod_cast h1)
    omega

theorem promoteDecision_impact (item : MenuRow) (d : GenDecision)
    (h : d ∈ promoteDecision item) :
    ∃ i : ℚ, d.impact.min = jsRound (i * (7/10)) ∧ d.impact.max = jsRound (i * (12/10)) := by
  unfold promoteDecision at h
  split at h
  · rw [List.mem_singleton] at h
    exact ⟨item.orders * (45/100) * item.margin, by rw [h], by rw [h]⟩
  · cases h

theorem repriceDecision_impact (item : MenuRow) (d : GenDecision)
    (h : d ∈ repriceDecision item) :
    ∃ i : ℚ, d.impact.min = jsRound (i * (8/10)) ∧ d.impact.max = jsRound (i * (11/10)) := by
  unfold repriceDecision at h
  split at h
  · rw [List.mem_singleton] at h
    exact ⟨item.orders * (1 - 25/100) *
      (item.price + (jsRound (item.price * (15/100)) : ℚ) - item.cost) -
      item.orders * item.margin, by rw [h], by rw [h]⟩
  · cases h

theorem removeDecision_impact (item : MenuRow) (d : GenDecision)
    (h : d ∈ removeDecision item) :
    ∃ i : ℚ, d.impact.min = jsRound (i * (6/10)) ∧ d.impact.max = jsRound (i * (14/10)) := by
  simp only [removeDecision] at h
  split at h
  · split at h
    · rw [List.mem_singleton] at h
      exact ⟨item.prepTime * item.orders * (23/10) - item.orders * item.margin,
        by rw [h], by rw [h]⟩
    · cases h
  · cases h

theorem channelDecisions_impact (channelData : List ChannelMetric) (d : GenDecision)
    (h : d ∈ channelDecisions channelData) :
    ∃ i : ℚ, d.impact.min = jsRound (i * (7/10)) ∧ d.impact.max = jsRound (i * (13/10)) := by
  simp only [channelDecisions] at h
  split at h
  · cases h
  · split at h
    · split at h
      · rw [List.mem_singleton] at h
        refine ⟨_, by rw [h], by rw [h]⟩
      · cases h
    · cases h

theorem capacityDecisions_impact (capacityData : List HourMetric) (d : GenDecision)
    (h : d ∈ capacityDecisions capacityData) :
    ∃ i : ℚ, d.impact.min = jsRound (i * (8/10)) ∧ d.impact.max = jsRound (i * (12/10)) := by
  simp only [capacityDecisions] at h
  split at h
  · split at h
    · rw [List.mem_singleton] at h
      refine ⟨_, by rw [h], by rw [h]⟩
    · cases h
  · cases h

/-- C5, counterexample: a plowhorse priced 8 with cost 1 and 100 completed
    orders makes the reprice branch's impact estimate negative
    (75 × 8 − 100 × 7 = −100), and the emitted decision has
    `impact.min = −80 > impact.max = −110`. -/
theorem generateDecisions_counterexample :
    ((generateDecisions 1 (getMenuEngineering [⟨8, 1, some 10, [⟨100, 8⟩]⟩]) [] []).map
      (fun d => (d.impact.min, d.impact.max))) = [(-80, -110)] ∧
    ¬((-80 : ℤ) ≤ -110) := by
  constructor
  · norm_num [generateDecisions, getMenuEngineering, menuDecisionsFor, promoteDecision,
      repriceDecision, removeDecision, channelDecisions, capacityDecisions, jsMin, jsRound]
  · decide

/-- C5, amended: every decision emitted by `generateDecisions` whose
    rounded upper impact bound is nonnegative satisfies
    `impact.min ≤ impact.max`; when the underlying impact estimate is
    negative (possible in the reprice and channel branches), the two
    scaled roundings swap order, as the counterexample shows. -/
theorem generateDecisions_impact_ordering :
    ∀ (orderCount : ℕ) (menuData : List MenuRow) (channelData : List ChannelMetric)
      (capacityData : List HourMetric) (d : GenDecision),
      d ∈ generateDecisions orderCount menuData channelData capacityData →
      0 ≤ d.impact.max → d.impact.min ≤ d.impact.max := by
  intro orderCount menuData channelData capacityData d hmem hmax
  unfold generateDecisions at hmem
  split at hmem
  · cases hmem
  · rcases List.mem_append.mp hmem with h1 | hcap
    · rcases List.mem_append.mp h1 with hmenu | hch
      · rcases List.mem_flatMap.mp hmenu with ⟨item, _, hd⟩
        rcases List.mem_append.mp hd with h2 | hrem
        · rcases List.mem_append.mp h2 with hpro | hrep
          · obtain ⟨i, hmin, hmax'⟩ := promoteDecision_impact item d hpro
            rw [hmax'] at hmax
            rw [hmin, hmax']
            exact jsRound_coeff_mono i _ _ (by norm_num) (by norm_num) hmax
          · obtain ⟨i, hmin, hmax'⟩ := repriceDecision_impact item d hrep
            rw [hmax'] at hmax
            rw [hmin, hmax']
            exact jsRound_coeff_mono i _ _ (by norm_num) (by norm_num) hmax
        · obtain ⟨i, hmin, hmax'⟩ := removeDecision_impact item d hrem
          rw [hmax'] at hmax
          rw [hmin, hmax']
          exact jsRound_coeff_mono i _ _ (by norm_num) (by norm_num) hmax
      · obtain ⟨i, hmin, hmax'⟩ := channelDecisions_impact channelData d hch
        rw [hmax'] at hmax
        rw [hmin, hmax']
        exact jsRound_coeff_mono i _ _ (by norm_num) (by norm_num) hmax
    · obtain ⟨i, hmin, hmax'⟩ := capacityDecisions_impact capacityData d hcap
      rw [hmax'] at hmax
      rw [hmin, hmax']
      exact jsRound_coeff_mono i _ _ (by norm_num) (by norm_num) hmax

/-- C5, witness: a promoted puzzle item's decision has its impact range in
    order (441 ≤ 756). -/
theorem generateDecisions_impact_ordering_witness :
    (⟨"Promote", "Menu", "medium", ⟨441, 756, 75⟩⟩ : GenDecision).impact.min ≤
      (⟨"Promote", "Menu", "medium", ⟨441, 756, 75⟩⟩ : GenDecision).impact.max :=
  generateDecisions_impact_ordering 1
    (getMenuEngineering
      [⟨720, 20, some 10, [⟨2, 720⟩]⟩, ⟨500, 500, some 10, [⟨98, 500⟩]⟩]) [] []
    ⟨"Promote", "Menu", "medium", ⟨441, 756, 75⟩⟩
    (by norm_num [generateDecisions, getMenuEngineering, menuDecisionsFor, promoteDecision,
      repriceDecision, removeDecision, channelDecisions, capacityDecisions, jsMin, jsRound])
    (by norm_num)

/-- C8, counterexample: with zero orders in the comparison period (and one
    current-period item row), `InsightEngine.analyzeRevenueChange` does not
    signal insufficient data — it returns a full decomposition (the whole
    change booked as mix effect), its divisions merely guarded to `0`. -/
theorem analyzeRevenueChangeSql_counterexample :
    analyzeRevenueChangeSql [⟨1, 2, 50, 100⟩] [] = ⟨100, 0, 0, 0, 0, 0, 100, 100⟩ := by
  norm_num [analyzeRevenueChangeSql, totalRevenue, volumeEffectSql, priceEffectSql,
    findRow, jsAbs]

/-- C8, amended: `ExplainableInsightEngine.analyzeRevenueChange` returns
    `null` (insufficient data) when either period holds zero orders, while
    `InsightEngine.analyzeRevenueChange` always returns a decomposition,
    with its percent field guarded to `0` instead of dividing by a
    non-positive comparison revenue — neither implementation divides by
    zero. -/
theorem revenue_analysis_insufficient_data :
    ∀ (curO compO : List Order) (cur comp : List AggRow),
      ((curO = [] ∨ compO = []) → explainableAnalyzeRevenueChange curO compO = none) ∧
      (totalRevenue comp ≤ 0 → (analyzeRevenueChangeSql cur comp).revenueChangePct = 0) := by
  intro curO compO cur comp
  constructor
  · intro h
    rcases h with h | h <;> subst h <;> simp [explainableAnalyzeRevenueChange]
  · intro h
    simp only [analyzeRevenueChangeSql]
    rw [if_neg (not_lt.mpr h)]

/-- C8, witness: an empty current period yields `null`, and the SQL
    implementation's percent change on an empty comparison period is `0`. -/
theorem revenue_analysis_insufficient_data_witness :
    explainableAnalyzeRevenueChange [] [⟨100, []⟩] = none ∧
    (analyzeRevenueChangeSql [⟨1, 2, 50, 100⟩] []).revenueChangePct = 0 :=
  ⟨(revenue_analysis_insufficient_data [] [⟨100, []⟩] [⟨1, 2, 50, 100⟩] []).1 (Or.inl rfl),
   (revenue_analysis_insufficient_data [] [⟨100, []⟩] [⟨1, 2, 50, 100⟩] []).2
     (by norm_num [totalRevenue])⟩

end RestaurantApp
